import Mathlib

/-!
# rauc-hawkbit-updater: configuration loader, installer callbacks and main

A shallow embedding of `src/config-file.c`, `src/device_id.c` and
`src/rauc-hawkbit-updater.c`.

* C out-parameters become extra components of the returned value; a `gchar*`
  that may be `NULL` is an `Option String`; `*error` of a `GError **error`
  argument is an `Option GError` threaded through the calls.
* The calls a function makes to the outside world (callbacks, `sync`,
  `reboot`, the hawkbit client) are recorded in a trace, in program order.
* GLib and libc are not part of the repository.  The entry points the code
  calls are modelled by their documented behaviour.  A key file is held as its
  groups of key/value pairs, with values free of backslash escapes, so that
  the raw value and the string value of a key coincide.
* Where C leaves the behaviour undefined (`get_group` on a missing group) the
  model returns `none`.
* Text printed to the standard streams by `device_id_init` is not part of the
  model, and neither is the scanning of `/etc/os-release` by
  `read_rootfs_version`, whose resulting string is an input of `main`.
-/

namespace RaucHawkbit

/-! ## GLib: errors -/

/-- Error domains. `raw n` is a domain given as a bare number, as the
`g_set_error (error, 1, 5, ...)` call of `load_config_file` does. -/
inductive GQuark where
  | G_KEY_FILE_ERROR
  | G_FILE_ERROR
  | raw (n : Nat)
deriving DecidableEq, Repr

/-- GLib `GError`: domain, code and message. -/
structure GError where
  domain : GQuark
  code : Nat
  message : String
deriving DecidableEq, Repr

def G_KEY_FILE_ERROR_KEY_NOT_FOUND : Nat := 3
def G_KEY_FILE_ERROR_GROUP_NOT_FOUND : Nat := 4

/-- GLib `g_set_error (err, ...)` for a non-NULL `err`: stores the new error
when `*err` is `NULL`; an error that is already set is kept (GLib only
warns). -/
def g_set_error (err : Option GError) (e : GError) : Option GError :=
  match err with
  | none => some e
  | some old => some old

/-- GLib `g_propagate_error (dest, src)` for a non-NULL `dest`: same storing
rule as `g_set_error`. -/
def g_propagate_error (dest : Option GError) (src : GError) : Option GError :=
  g_set_error dest src

/-! ## GLib: strings -/

/-- C `strcmp` on the characters of two strings.  The C standard fixes only the
sign of the result: negative, zero on equal strings, positive. -/
def strcmp : List Char → List Char → Int
  | [], [] => 0
  | [], _ :: _ => -1
  | _ :: _, [] => 1
  | a :: as, b :: bs => if a = b then strcmp as bs else if a.toNat < b.toNat then -1 else 1

/-- GLib `g_strcmp0`: `strcmp` that also accepts `NULL`, which sorts before every
string. -/
def g_strcmp0 (str1 str2 : Option String) : Int :=
  match str1, str2 with
  | none, none => 0
  | none, some _ => -1
  | some _, none => 1
  | some a, some b => strcmp a.data b.data

/-- GLib `g_ascii_tolower`: maps `A`..`Z` to `a`..`z`, every other character to
itself. -/
def g_ascii_tolower (c : Char) : Char :=
  if 65 ≤ c.toNat ∧ c.toNat ≤ 90 then Char.ofNat (c.toNat + 32) else c

/-- The comparison loop of `g_ascii_strcasecmp`: `strcmp` after
`g_ascii_tolower` on both sides; zero on a match, else negative or positive. -/
def ascii_strcasecmp : List Char → List Char → Int
  | [], [] => 0
  | [], _ :: _ => -1
  | _ :: _, [] => 1
  | a :: as, b :: bs =>
    if g_ascii_tolower a = g_ascii_tolower b then ascii_strcasecmp as bs
    else if (g_ascii_tolower a).toNat < (g_ascii_tolower b).toNat then -1 else 1

/-- GLib `g_ascii_strcasecmp (s1, s2)`: zero exactly when the strings match
ignoring ASCII case. -/
def g_ascii_strcasecmp (s1 s2 : String) : Int :=
  ascii_strcasecmp s1.data s2.data

/-- C `isspace` in the C locale. -/
def isspace (c : Char) : Bool :=
  c.toNat = 32 || (9 ≤ c.toNat && c.toNat ≤ 13)

/-- GLib `g_ascii_isspace`: space, tab, line feed, form feed, carriage return. -/
def g_ascii_isspace (c : Char) : Bool :=
  c.toNat = 32 || c.toNat = 9 || c.toNat = 10 || c.toNat = 12 || c.toNat = 13

/-- C `isdigit`. -/
def isdigit (c : Char) : Bool :=
  48 ≤ c.toNat && c.toNat ≤ 57

/-- The digit loop of `strtol` in base 10: consumes leading digits into the
accumulator and returns it with the unread rest. -/
def strtol_digits : List Char → Nat → Nat × List Char
  | [], acc => (acc, [])
  | c :: cs, acc =>
    if isdigit c then strtol_digits cs (acc * 10 + (c.toNat - 48)) else (acc, c :: cs)

/-- C `strtol (s, &end, 10)` without the clamping to `long`: skips white space,
reads an optional sign and the digits.  With no digit nothing is converted and
`end` is `s` itself.  The value is returned unclamped; the caller rejects what
does not fit. -/
def strtol (s : List Char) : Int × List Char :=
  let t := s.dropWhile isspace
  let signed : Bool × List Char :=
    match t with
    | c :: r => if c = '-' then (true, r) else if c = '+' then (false, r) else (false, t)
    | [] => (false, t)
  match signed.2 with
  | [] => (0, s)
  | c :: _ =>
    if isdigit c then
      let d := strtol_digits signed.2 0
      (if signed.1 then - (d.1 : Int) else (d.1 : Int), d.2)
    else (0, s)

def G_MININT : Int := -2147483648
def G_MAXINT : Int := 2147483647

/-! ## GLib: key files -/

/-- One `[group]` of a key file with its `key=value` lines in file order.
Values are free of backslash escapes. -/
structure GKeyFileGroup where
  name : String
  key_value_pairs : List (String × String)
deriving DecidableEq, Repr

/-- A loaded `GKeyFile`: its groups in file order. -/
abbrev GKeyFile := List GKeyFileGroup

/-- Group lookup by name. -/
def g_key_file_lookup_group : GKeyFile → String → Option GKeyFileGroup
  | [], _ => none
  | g :: gs, group_name =>
    if g.name = group_name then some g else g_key_file_lookup_group gs group_name

/-- Key lookup inside a group. -/
def g_key_file_lookup_key_value_pair : List (String × String) → String → Option String
  | [], _ => none
  | p :: ps, key => if p.1 = key then some p.2 else g_key_file_lookup_key_value_pair ps key

/-- GLib `g_key_file_get_value`: the value of `key` in `group_name`, or the error
GLib raises (group not found, key not found). -/
def g_key_file_get_value (key_file : GKeyFile) (group_name key : String) :
    Except GError String :=
  match g_key_file_lookup_group key_file group_name with
  | none =>
    .error ⟨GQuark.G_KEY_FILE_ERROR, G_KEY_FILE_ERROR_GROUP_NOT_FOUND,
      "Key file does not have group " ++ group_name⟩
  | some g =>
    match g_key_file_lookup_key_value_pair g.key_value_pairs key with
    | none =>
      .error ⟨GQuark.G_KEY_FILE_ERROR, G_KEY_FILE_ERROR_KEY_NOT_FOUND,
        "Key file does not have key " ++ key ++ " in group " ++ group_name⟩
    | some v => .ok v

/-- GLib `g_key_file_get_string`: `NULL` with an error when the group or the
key is missing, else the string value, which for a value without escapes is
the raw value. -/
def g_key_file_get_string (key_file : GKeyFile) (group_name key : String) :
    Except GError String :=
  g_key_file_get_value key_file group_name key

/-- GLib `g_key_file_parse_value_as_integer`: `strtol` in base 10; rejects an empty
value, trailing text that does not start with white space, and a number that
does not fit a `gint`. -/
def g_key_file_parse_value_as_integer (value : String) : Option Int :=
  let r := strtol value.data
  let bad_end : Bool :=
    match r.2 with
    | [] => false
    | c :: _ => !g_ascii_isspace c
  if value.data = [] ∨ bad_end = true then none
  else if r.1 < G_MININT ∨ G_MAXINT < r.1 then none
  else some r.1

/-- GLib `g_key_file_get_integer (key_file, group, key, NULL)`: the integer value,
or 0 when the key is not found or its value cannot be parsed. -/
def g_key_file_get_integer (key_file : GKeyFile) (group_name key : String) : Int :=
  match g_key_file_get_value key_file group_name key with
  | .error _ => 0
  | .ok value =>
    match g_key_file_parse_value_as_integer value with
    | none => 0
    | some n => n

/-- GLib `g_key_file_get_keys`: the keys of the group in order, or `NULL` when the
group is missing.  In that case GLib does not write the `length` output. -/
def g_key_file_get_keys (key_file : GKeyFile) (group_name : String) : Option (List String) :=
  match g_key_file_lookup_group key_file group_name with
  | none => none
  | some g => some (g.key_value_pairs.map Prod.fst)

/-! ## GLib: hash tables with string keys -/

/-- A `GHashTable` created with `g_str_hash` / `g_str_equal`, as its entries. -/
abbrev GHashTable := List (String × Option String)

/-- GLib `g_hash_table_insert`: replaces the value of an existing key, else adds the
entry. -/
def g_hash_table_insert : GHashTable → String → Option String → GHashTable
  | [], key, value => [(key, value)]
  | e :: es, key, value =>
    if e.1 = key then (e.1, value) :: es else e :: g_hash_table_insert es key value

/-! ## GLib: log levels -/

def G_LOG_LEVEL_ERROR : Nat := 4
def G_LOG_LEVEL_CRITICAL : Nat := 8
def G_LOG_LEVEL_WARNING : Nat := 16
def G_LOG_LEVEL_MESSAGE : Nat := 32
def G_LOG_LEVEL_INFO : Nat := 64
def G_LOG_LEVEL_DEBUG : Nat := 128

/-- The value `~(G_LOG_FLAG_RECURSION | G_LOG_FLAG_FATAL)` as a 32-bit mask. -/
def G_LOG_LEVEL_MASK : Nat := 4294967292

/-! ## config-file.c -/

def DEFAULT_CONNECTTIMEOUT : Int := 20
def DEFAULT_TIMEOUT : Int := 60
def DEFAULT_RETRY_WAIT : Int := 5 * 60
def DEFAULT_SSL : Bool := true
def DEFAULT_SSL_VERIFY : Bool := true
def DEFAULT_LOG_LEVEL : String := "message"

/-- The `struct config` record.  Its declaration (`config-file.h`) is not among
the sources; the fields are those the two translation units assign, the
timeouts being `long` and printed with `%ld`. -/
structure config where
  hawkbit_server : Option String
  ssl : Bool
  ssl_verify : Bool
  auth_token : Option String
  tenant_id : Option String
  controller_id : Option String
  bundle_download_location : Option String
  connect_timeout : Int
  timeout : Int
  retry_wait : Int
  log_level : Nat
  device : Option GHashTable
deriving DecidableEq, Repr

/-- GLib `g_new0 (struct config, 1)`: every field zero. -/
def g_new0_config : config :=
  { hawkbit_server := none, ssl := false, ssl_verify := false, auth_token := none,
    tenant_id := none, controller_id := none, bundle_download_location := none,
    connect_timeout := 0, timeout := 0, retry_wait := 0, log_level := 0, device := none }

/-- Function `get_key_string`: returns the flag, the content of `*value`
afterwards and the content of `*error` afterwards. -/
def get_key_string (key_file : GKeyFile) (group key : String) (value : Option String)
    (default_value : Option String) (error : Option GError) :
    Bool × Option String × Option GError :=
  match g_key_file_get_string key_file group key with
  | .error e =>
    match default_value with
    | some d => (true, some d, g_propagate_error error e)
    | none => (false, value, g_propagate_error error e)
  | .ok val => (true, some val, error)

/-- Function `get_key_bool`: returns the flag and the content of `*value`
afterwards.  The lookup is made with a `NULL` error pointer and `error` is
never written. -/
def get_key_bool (key_file : GKeyFile) (group key : String) (value : Bool)
    (default_value : Bool) : Bool × Bool :=
  match g_key_file_get_string key_file group key with
  | .error _ => (true, default_value)
  | .ok val =>
    let val_false : Bool :=
      g_strcmp0 (some val) (some "0") = 0 || g_ascii_strcasecmp val "no" = 0
        || g_ascii_strcasecmp val "false" = 0
    if val_false then (true, false)
    else
      let val_true : Bool :=
        g_strcmp0 (some val) (some "1") = 0 || g_ascii_strcasecmp val "yes" = 0
          || g_ascii_strcasecmp val "true" = 0
      if val_true then (true, true)
      else (false, value)

/-- Function `get_key_int`: returns the flag and the content of `*value`
afterwards. -/
def get_key_int (key_file : GKeyFile) (group key : String) (default_value : Int) : Bool × Int :=
  let val := g_key_file_get_integer key_file group key
  if val = 0 then (true, default_value)
  else (true, val)

/-- The `for` loop of `get_group`: fetches the raw value of every key and
inserts it. -/
def get_group_loop (key_file : GKeyFile) (group : String) :
    List String → GHashTable → GHashTable
  | [], hash => hash
  | k :: ks, hash =>
    let value : Option String :=
      match g_key_file_get_value key_file group k with
      | .error _ => none
      | .ok v => some v
    get_group_loop key_file group ks (g_hash_table_insert hash k value)

/-- Function `get_group`: returns the flag and the table stored in `*hash`.
`error` is received by value, so nothing the function does to it reaches the
caller.  When the group is missing `g_key_file_get_keys` leaves `num_keys`
unwritten and the function reads it uninitialised: the result is `none`,
undefined behaviour. -/
def get_group (key_file : GKeyFile) (group : String) (_error : Option GError) :
    Option (Bool × GHashTable) :=
  match g_key_file_get_keys key_file group with
  | none => none
  | some keys => some (decide (keys.length > 0), get_group_loop key_file group keys [])

/-- Function `log_level_from_string`: the mask of log levels a level name selects. -/
def log_level_from_string (log_level : Option String) : Nat :=
  if g_strcmp0 log_level (some "error") = 0 then
    G_LOG_LEVEL_ERROR
  else if g_strcmp0 log_level (some "critical") = 0 then
    G_LOG_LEVEL_ERROR ||| G_LOG_LEVEL_CRITICAL
  else if g_strcmp0 log_level (some "warning") = 0 then
    G_LOG_LEVEL_ERROR ||| G_LOG_LEVEL_CRITICAL ||| G_LOG_LEVEL_WARNING
  else if g_strcmp0 log_level (some "message") = 0 then
    G_LOG_LEVEL_ERROR ||| G_LOG_LEVEL_CRITICAL ||| G_LOG_LEVEL_WARNING ||| G_LOG_LEVEL_MESSAGE
  else if g_strcmp0 log_level (some "info") = 0 then
    G_LOG_LEVEL_ERROR ||| G_LOG_LEVEL_CRITICAL ||| G_LOG_LEVEL_WARNING ||| G_LOG_LEVEL_MESSAGE
      ||| G_LOG_LEVEL_INFO
  else if g_strcmp0 log_level (some "debug") = 0 then
    G_LOG_LEVEL_MASK
  else
    G_LOG_LEVEL_ERROR ||| G_LOG_LEVEL_CRITICAL ||| G_LOG_LEVEL_WARNING ||| G_LOG_LEVEL_MESSAGE

/-- What `load_config_file` leaves behind: the returned pointer (`none` for
`NULL`) and the content of `*error`. -/
structure LoadResult where
  config : Option config
  error : Option GError
deriving DecidableEq, Repr

/-- The text of the validation error of `load_config_file`. -/
def timeout_error_message (timeout connect_timeout : Int) : String :=
  "timeout should be greater than connect_timeout. Timeout: " ++ toString timeout
    ++ ", Connect timeout: " ++ toString connect_timeout

/-- Function `load_config_file`: the returned pointer and `*error`.  `ini` is
the outcome of `g_key_file_load_from_file` on `config_file`; `error` is the
content of `*error` at entry.  The result is `none` when the run reaches the
undefined read of `get_group`. -/
def load_config_file (ini : Except GError GKeyFile) (error : Option GError) :
    Option LoadResult :=
  let config : RaucHawkbit.config := g_new0_config
  match ini with
  | .error e => some ⟨none, g_propagate_error error e⟩
  | .ok ini_file =>
  let hawkbit_server :=
    get_key_string ini_file "client" "hawkbit_server" config.hawkbit_server none error
  let config : RaucHawkbit.config := { config with hawkbit_server := hawkbit_server.2.1 }
  if hawkbit_server.1 = false then some ⟨none, hawkbit_server.2.2⟩ else
  let auth_token :=
    get_key_string ini_file "client" "auth_token" config.auth_token none hawkbit_server.2.2
  let config : RaucHawkbit.config := { config with auth_token := auth_token.2.1 }
  if auth_token.1 = false then some ⟨none, auth_token.2.2⟩ else
  let controller_id :=
    get_key_string ini_file "client" "target_name" config.controller_id none auth_token.2.2
  let config : RaucHawkbit.config := { config with controller_id := controller_id.2.1 }
  if controller_id.1 = false then some ⟨none, controller_id.2.2⟩ else
  let tenant_id :=
    get_key_string ini_file "client" "tenant_id" config.tenant_id (some "DEFAULT")
      controller_id.2.2
  let config : RaucHawkbit.config := { config with tenant_id := tenant_id.2.1 }
  if tenant_id.1 = false then some ⟨none, tenant_id.2.2⟩ else
  let bundle_download_location :=
    get_key_string ini_file "client" "bundle_download_location"
      config.bundle_download_location none tenant_id.2.2
  let config : RaucHawkbit.config :=
    { config with bundle_download_location := bundle_download_location.2.1 }
  if bundle_download_location.1 = false then some ⟨none, bundle_download_location.2.2⟩ else
  let error := bundle_download_location.2.2
  let ssl := get_key_bool ini_file "client" "ssl" config.ssl DEFAULT_SSL
  let config : RaucHawkbit.config := { config with ssl := ssl.2 }
  if ssl.1 = false then some ⟨none, error⟩ else
  let ssl_verify := get_key_bool ini_file "client" "ssl_verify" config.ssl_verify DEFAULT_SSL_VERIFY
  let config : RaucHawkbit.config := { config with ssl_verify := ssl_verify.2 }
  if ssl_verify.1 = false then some ⟨none, error⟩ else
  match get_group ini_file "device" error with
  | none => none
  | some device =>
  let config : RaucHawkbit.config := { config with device := some device.2 }
  if device.1 = false then some ⟨none, error⟩ else
  let val_int := get_key_int ini_file "client" "connect_timeout" DEFAULT_CONNECTTIMEOUT
  if val_int.1 = false then some ⟨none, error⟩ else
  let config : RaucHawkbit.config := { config with connect_timeout := val_int.2 }
  let val_int := get_key_int ini_file "client" "timeout" DEFAULT_TIMEOUT
  if val_int.1 = false then some ⟨none, error⟩ else
  let config : RaucHawkbit.config := { config with timeout := val_int.2 }
  let val_int := get_key_int ini_file "client" "retry_wait" DEFAULT_RETRY_WAIT
  if val_int.1 = false then some ⟨none, error⟩ else
  let config : RaucHawkbit.config := { config with retry_wait := val_int.2 }
  let val := get_key_string ini_file "client" "log_level" none (some DEFAULT_LOG_LEVEL) error
  if val.1 = false then some ⟨none, val.2.2⟩ else
  let error := val.2.2
  let config : RaucHawkbit.config := { config with log_level := log_level_from_string val.2.1 }
  if config.timeout > 0 ∧ config.connect_timeout > 0
      ∧ config.timeout < config.connect_timeout then
    some ⟨none, g_set_error error
      ⟨GQuark.raw 1, 5, timeout_error_message config.timeout config.connect_timeout⟩⟩
  else
    some ⟨some config, error⟩

/-! ### Sample key files -/

/-- A key file with every required key and one device attribute; `extra` is
added to the `[client]` group. -/
def sample_key_file (extra : List (String × String)) : GKeyFile :=
  [ ⟨"client", [("hawkbit_server", "hawkbit.example.org"), ("auth_token", "secret"),
      ("target_name", "device-1"), ("tenant_id", "DEFAULT"),
      ("bundle_download_location", "/tmp/bundle.raucb")] ++ extra⟩,
    ⟨"device", [("product", "gateway")]⟩ ]

/-! ## device_id.c -/

/-- C `isalnum` in the C locale, on a byte. -/
def isalnum (c : Nat) : Bool :=
  (48 ≤ c && c ≤ 57) || (65 ≤ c && c ≤ 90) || (97 ≤ c && c ≤ 122)

/-- What the device-id file gives: `fd` is the result of `open`; `contents` is
what `read` finds behind the descriptor, `none` when `read` fails. -/
structure DeviceFile where
  fd : Int
  contents : Option (List Nat)
deriving DecidableEq, Repr

/-- The initial content of the static buffer `_device_id`: the text
`<unique_id>` and zero bytes up to the buffer size. -/
def _device_id_initial (DEVICE_ID_LENGTH_MAX : Nat) : List Nat :=
  let text : List Nat := "<unique_id>".data.map Char.toNat
  text ++ List.replicate (DEVICE_ID_LENGTH_MAX - text.length) 0

/-- POSIX `read (fd, buf, count)` on the device-id file: the returned length
(-1 on error) and the buffer afterwards, with at most `count` bytes stored at
its start. -/
def read (file : DeviceFile) (buf : List Nat) (count : Nat) : Int × List Nat :=
  match file.contents with
  | none => (-1, buf)
  | some bytes =>
    (((bytes.take count).length : Int),
      bytes.take count ++ buf.drop (bytes.take count).length)

/-- The `for` loop of `device_id_init` with `remaining = len - i` iterations
left: `false` as soon as a byte is not alphanumeric (the `break`), `true` when
`i` reaches `len`. -/
def device_id_init_loop (_device_id : List Nat) (len : Nat) : Nat → Bool
  | 0 => true
  | remaining + 1 =>
    if !isalnum (_device_id.getD (len - (remaining + 1)) 0) then false
    else device_id_init_loop _device_id len remaining

/-- The function `device_id_init`: the returned flag and the buffer
`_device_id` afterwards.  `DEVICE_ID_LENGTH_MAX` comes from `device_id.h`,
which is not among the sources, and is a parameter. -/
def device_id_init (DEVICE_ID_LENGTH_MAX : Nat) (file : DeviceFile) : Bool × List Nat :=
  let _device_id := _device_id_initial DEVICE_ID_LENGTH_MAX
  if file.fd > 0 then
    let r := read file _device_id DEVICE_ID_LENGTH_MAX
    if r.1 > 0 then
      (device_id_init_loop r.2 r.1.toNat r.1.toNat, r.2)
    else (false, r.2)
  else (false, _device_id)

/-- The C string a `char` buffer holds: the bytes before the first zero. -/
def c_string (buffer : List Nat) : String :=
  String.mk ((buffer.takeWhile (fun b => b != 0)).map Char.ofNat)

/-- Function `device_id_get`: the buffer read as a C string. -/
def device_id_get (_device_id : List Nat) : String :=
  c_string _device_id

/-! ## rauc-hawkbit-updater.c: installer callbacks -/

/-- Calls the installer callbacks make to the outside, in program order. -/
inductive Event where
  | g_mutex_lock
  | g_mutex_unlock
  | g_queue_pop_head (msg : String)
  | g_message (text : String)
  | notify_hawkbit_install_progress (msg : String)
  | notify_hawkbit_install_complete (install_success : Bool)
  | sync
  | reboot
deriving DecidableEq, Repr

/-- The fields of `struct install_context` the callbacks use; its declaration
(`rauc-installer.h`) is not among the sources.  The queue `status_messages` is
listed head first. -/
structure install_context where
  bundle : String
  status_messages : List String
  status_result : Int
deriving DecidableEq, Repr

def G_SOURCE_REMOVE : Bool := false

/-- The `while` loop of `on_rauc_install_progress_cb`: as long as the queue is
not empty, pops its head, logs it and hands it to the progress callback.
Returns the queue left and the calls made. -/
def on_rauc_install_progress_loop (bundle : String) : List String → List String × List Event
  | [] => ([], [])
  | msg :: rest =>
    let r := on_rauc_install_progress_loop bundle rest
    (r.1, [Event.g_queue_pop_head msg,
           Event.g_message ("Installing: " ++ bundle ++ " : " ++ msg),
           Event.notify_hawkbit_install_progress msg] ++ r.2)

/-- Function `on_rauc_install_progress_cb`: the return value, the context afterwards and
the calls made. -/
def on_rauc_install_progress_cb (context : install_context) :
    Bool × install_context × List Event :=
  let r := on_rauc_install_progress_loop context.bundle context.status_messages
  (G_SOURCE_REMOVE, { context with status_messages := r.1 },
    [Event.g_mutex_lock] ++ r.2 ++ [Event.g_mutex_unlock])

def FILE_DO_REBOOT : String := "/tmp/.do_reboot"

/-- POSIX `access (path, F_OK)` over a file system given by which paths exist. -/
def access (fs : String → Bool) (path : String) : Int :=
  if fs path then 0 else -1

/-- Function `on_rauc_install_complete_cb`: the calls made and the return value.
`reboot_result` is what `reboot (RB_AUTOBOOT)` returns if it is called, `none`
when the machine restarts and the call never returns; the callback then has no
return value either. -/
def on_rauc_install_complete_cb (context : install_context) (fs : String → Bool)
    (reboot_result : Option Int) : Option Bool × List Event :=
  let install_success : Bool := decide (context.status_result = 0)
  let notified := [Event.notify_hawkbit_install_complete install_success]
  if access fs FILE_DO_REBOOT ≠ -1 then
    (reboot_result.map (fun _ => G_SOURCE_REMOVE), notified ++ [Event.sync, Event.reboot])
  else
    (some G_SOURCE_REMOVE, notified)

/-- The messages handed to the progress callback, in call order. -/
def progress_calls : List Event → List String
  | [] => []
  | Event.notify_hawkbit_install_progress msg :: es => msg :: progress_calls es
  | _ :: es => progress_calls es

/-- The results handed to the completion callback, in call order. -/
def complete_calls : List Event → List Bool
  | [] => []
  | Event.notify_hawkbit_install_complete b :: es => b :: complete_calls es
  | _ :: es => complete_calls es

def PROGRAM : String := "rauc-hawkbit-updater"

/-- The program-argument variables as `g_option_context_parse_strv` leaves
them; each is written by the entry of `entries` that names it. -/
structure options where
  config_file : Option String
  opt_version : Bool
  opt_debug : Bool
  opt_run_once : Bool
  opt_output_systemd : Bool
deriving DecidableEq, Repr

/-- The scheduler control flags `force_check_run` and `run_once`, globals
of the hawkbit client that `main` writes. -/
structure control_flags where
  force_check_run : Bool
  run_once : Bool
deriving DecidableEq, Repr

/-- Calls `main` makes, in program order.  `hawkbit_start_service_sync` carries
the control flags as they stand when it is called. -/
inductive MainCall where
  | g_printerr (text : String)
  | g_printf (text : String)
  | setup_logging (program : String) (log_level : Nat) (output_systemd : Bool)
  | hawkbit_init (config : config)
  | identify
  | hawkbit_start_service_sync (flags : control_flags)
deriving DecidableEq, Repr

/-- GLib `g_strchomp`: removes trailing white space. -/
def g_strchomp (s : List Char) : List Char :=
  (s.reverse.dropWhile g_ascii_isspace).reverse

/-- GLib `g_strstrip`: removes leading and trailing white space. -/
def g_strstrip (s : String) : String :=
  String.mk (g_strchomp (s.data.dropWhile g_ascii_isspace))

/-- Function `read_apps_version`: the returned flag and the string stored in
`*apps_version`.  `contents` is the outcome of `g_file_get_contents` on the
version file. -/
def read_apps_version (contents : Except GError String) : Bool × String :=
  match contents with
  | .error _ => (false, "0.0.0")
  | .ok text => if text.data.length = 0 then (false, "0.0.0") else (true, text)

/-- The result of `main`: the exit code and the calls made. -/
structure MainResult where
  exit_code : Int
  calls : List MainCall
deriving DecidableEq, Repr

/-- The configuration `main` builds.  `WATTSENSE` is defined at the top of the
file, so the branch that loads a configuration file is compiled out and this
hardcoded record is the only configuration of the program. -/
def main_config (_device_id : List Nat) (apps_version rootfs_version : String) : config :=
  let config := g_new0_config
  let config := { config with controller_id := some (device_id_get _device_id) }
  let config := { config with auth_token := some (device_id_get _device_id) }
  let config := { config with ssl := true }
  let config := { config with ssl_verify := true }
  let config := { config with hawkbit_server := some "eagle.wattsense.com" }
  let config := { config with tenant_id := some "DEFAULT" }
  let config := { config with bundle_download_location := some "/tmp/bundle.raucb" }
  let config := { config with connect_timeout := 40 }
  let config := { config with timeout := 60 }
  let config := { config with retry_wait := 60 }
  let config := { config with
    log_level := G_LOG_LEVEL_ERROR ||| G_LOG_LEVEL_CRITICAL ||| G_LOG_LEVEL_WARNING }
  let device : GHashTable := []
  let device := g_hash_table_insert device "APP_VERS" (some (g_strstrip apps_version))
  let device := g_hash_table_insert device "ROOTFS_VERS" (some (g_strstrip rootfs_version))
  { config with device := some device }

/-- Function `main` as compiled, with `WATTSENSE` defined.  `parsed` is the
outcome of `g_option_context_parse_strv`, `device_file` what the device-id file gives,
`apps_contents` the outcome of reading the application version file,
`rootfs_version` the string `read_rootfs_version` stores, and `flags` the
control flags at entry. -/
def main (parsed : Except GError options) (DEVICE_ID_LENGTH_MAX : Nat)
    (device_file : DeviceFile) (apps_contents : Except GError String)
    (rootfs_version : String) (flags : control_flags) : MainResult :=
  match parsed with
  | .error error =>
    ⟨1, [MainCall.g_printerr ("option parsing failed: " ++ error.message ++ "\n")]⟩
  | .ok opts =>
    if opts.opt_version then
      ⟨0, [MainCall.g_printf "Version 0.1\n"]⟩
    else
      let id := device_id_init DEVICE_ID_LENGTH_MAX device_file
      if !id.1 then
        ⟨5, []⟩
      else
        let config := main_config id.2 (read_apps_version apps_contents).2 rootfs_version
        let log_level := if opts.opt_debug then G_LOG_LEVEL_MASK else config.log_level
        let flags := { flags with force_check_run := true }
        ⟨0, [MainCall.setup_logging PROGRAM log_level opts.opt_output_systemd,
             MainCall.hawkbit_init config,
             MainCall.identify,
             MainCall.hawkbit_start_service_sync flags]⟩

/-- The control flags with which `hawkbit_start_service_sync` is called, if it
is called. -/
def service_flags : List MainCall → Option control_flags
  | [] => none
  | MainCall.hawkbit_start_service_sync flags :: _ => some flags
  | _ :: cs => service_flags cs

/-- The configuration handed to `hawkbit_init`, if it is called. -/
def service_config : List MainCall → Option config
  | [] => none
  | MainCall.hawkbit_init config :: _ => some config
  | _ :: cs => service_config cs

/-! ## Predicates of the claims and sample inputs -/

/-- A file system in which the reboot marker exists. -/
def fs_with_marker : String → Bool :=
  fun path => decide (path = "/tmp/.do_reboot")

/-- A file system without the reboot marker. -/
def fs_without_marker : String → Bool :=
  fun _ => false

/-- A device-id file holding the eight bytes `SN123456`. -/
def sample_device_file : DeviceFile :=
  ⟨3, some [83, 78, 49, 50, 51, 52, 53, 54]⟩

/-- The same device-id file when `open` hands out descriptor 0, the lowest
free one in a process started with its standard input closed. -/
def sample_device_file_descriptor_zero : DeviceFile :=
  ⟨0, some [83, 78, 49, 50, 51, 52, 53, 54]⟩

/-- Every `get_key_string` without default, every `get_key_bool` and the
`get_group` call of `load_config_file` returns TRUE on this key file. -/
def required_keys_load (kf : GKeyFile) : Bool :=
  (g_key_file_get_string kf "client" "hawkbit_server").toBool
    && (g_key_file_get_string kf "client" "auth_token").toBool
    && (g_key_file_get_string kf "client" "target_name").toBool
    && (g_key_file_get_string kf "client" "bundle_download_location").toBool
    && (get_key_bool kf "client" "ssl" false DEFAULT_SSL).1
    && (get_key_bool kf "client" "ssl_verify" false DEFAULT_SSL_VERIFY).1
    && (match get_group kf "device" none with
        | some device => device.1
        | none => false)

/-- Equality of two strings ignoring ASCII case: equal after `g_ascii_tolower`
on every character. -/
def eq_ignoring_ascii_case (a b : String) : Prop :=
  a.data.map g_ascii_tolower = b.data.map g_ascii_tolower

instance eq_ignoring_ascii_case_decidable (a b : String) :
    Decidable (eq_ignoring_ascii_case a b) :=
  inferInstanceAs (Decidable (a.data.map g_ascii_tolower = b.data.map g_ascii_tolower))

/-- The configuration the sample key file with `timeout=30` and
`connect_timeout=10` loads to. -/
def sample_config_30_10 : config :=
  { hawkbit_server := some "hawkbit.example.org", ssl := true, ssl_verify := true,
    auth_token := some "secret", tenant_id := some "DEFAULT", controller_id := some "device-1",
    bundle_download_location := some "/tmp/bundle.raucb", connect_timeout := 10, timeout := 30,
    retry_wait := 300, log_level := 60, device := some [("product", some "gateway")] }

/-- The sample key file with a `[device]` group that has no key. -/
def sample_key_file_empty_device : GKeyFile :=
  [ ⟨"client", [("hawkbit_server", "hawkbit.example.org"), ("auth_token", "secret"),
      ("target_name", "device-1"), ("tenant_id", "DEFAULT"),
      ("bundle_download_location", "/tmp/bundle.raucb")]⟩,
    ⟨"device", []⟩ ]

/-! ## Installer callbacks: lemmas -/

theorem progress_calls_append (a b : List Event) :
    progress_calls (a ++ b) = progress_calls a ++ progress_calls b := by
  induction a with
  | nil => rfl
  | cons e es ih => cases e <;> simp [progress_calls, ih]

theorem progress_loop_queue (bundle : String) (q : List String) :
    (on_rauc_install_progress_loop bundle q).1 = [] := by
  induction q with
  | nil => rfl
  | cons m rest ih => simpa [on_rauc_install_progress_loop] using ih

theorem progress_loop_calls (bundle : String) (q : List String) :
    progress_calls (on_rauc_install_progress_loop bundle q).2 = q := by
  induction q with
  | nil => rfl
  | cons m rest ih => simp [on_rauc_install_progress_loop, progress_calls, ih]

/-- C3: `on_rauc_install_progress_cb` drains the status queue in FIFO order,
once per message.  For every queue content at entry the messages handed to
`notify_hawkbit_install_progress` are exactly the queue content in queue order,
the queue is empty afterwards and the function returns `G_SOURCE_REMOVE`. -/
theorem on_rauc_install_progress_cb_fifo (context : install_context) :
    progress_calls (on_rauc_install_progress_cb context).2.2 = context.status_messages
      ∧ (on_rauc_install_progress_cb context).2.1.status_messages = []
      ∧ (on_rauc_install_progress_cb context).1 = G_SOURCE_REMOVE := by
  refine ⟨?_, ?_, rfl⟩
  · simp [on_rauc_install_progress_cb, progress_calls_append, progress_calls,
      progress_loop_calls]
  · simp [on_rauc_install_progress_cb, progress_loop_queue]

/-- C5, as stated, fails: a failed install (`status_result = 1`) with the marker
file present reports the failure and then syncs and requests the reboot. -/
theorem install_failure_reboots_example :
    (on_rauc_install_complete_cb ⟨"bundle.raucb", [], 1⟩ fs_with_marker none).2
      = [Event.notify_hawkbit_install_complete false, Event.sync, Event.reboot] := by
  decide

/-- C5, amended: for every install context with a failure result the failure is
reported through the completion callback, once and with `install_success`
false.  With the marker file absent nothing else happens, so no reboot is
requested; with the marker present the callback goes on to `sync` and requests
the reboot although the install failed. -/
theorem on_rauc_install_complete_cb_failure (context : install_context) (fs : String → Bool)
    (reboot_result : Option Int) (h : context.status_result ≠ 0) :
    (fs "/tmp/.do_reboot" = false →
        (on_rauc_install_complete_cb context fs reboot_result).2
          = [Event.notify_hawkbit_install_complete false])
      ∧ (fs "/tmp/.do_reboot" = true →
          (on_rauc_install_complete_cb context fs reboot_result).2
            = [Event.notify_hawkbit_install_complete false, Event.sync, Event.reboot]) := by
  unfold on_rauc_install_complete_cb access FILE_DO_REBOOT
  cases hfs : fs "/tmp/.do_reboot" <;> simp [h]

/-- Witness for C5 amended: a failed install without the marker file only
reports the failure. -/
theorem on_rauc_install_complete_cb_failure_witness :
    (on_rauc_install_complete_cb ⟨"bundle.raucb", [], 1⟩ fs_without_marker none).2
      = [Event.notify_hawkbit_install_complete false] :=
  (on_rauc_install_complete_cb_failure ⟨"bundle.raucb", [], 1⟩ fs_without_marker none
    (by decide)).1 rfl

/-- C6: at install completion a reboot is requested exactly when the marker
file `/tmp/.do_reboot` is present.  With the marker the trace is the completion
notification, then `sync`, then `reboot`; without it the trace has neither
`sync` nor `reboot` and the function returns `G_SOURCE_REMOVE`. -/
theorem on_rauc_install_complete_cb_reboot (context : install_context) (fs : String → Bool)
    (reboot_result : Option Int) :
    (Event.reboot ∈ (on_rauc_install_complete_cb context fs reboot_result).2
        ↔ fs "/tmp/.do_reboot" = true)
      ∧ (fs "/tmp/.do_reboot" = true →
          ∃ b, (on_rauc_install_complete_cb context fs reboot_result).2
            = [Event.notify_hawkbit_install_complete b] ++ [Event.sync, Event.reboot])
      ∧ (fs "/tmp/.do_reboot" = false →
          Event.sync ∉ (on_rauc_install_complete_cb context fs reboot_result).2
            ∧ Event.reboot ∉ (on_rauc_install_complete_cb context fs reboot_result).2
            ∧ (on_rauc_install_complete_cb context fs reboot_result).1
                = some G_SOURCE_REMOVE) := by
  unfold on_rauc_install_complete_cb access FILE_DO_REBOOT
  cases hfs : fs "/tmp/.do_reboot" <;> simp

/-- Witness for C6: a successful install with the marker present ends with
`sync` and `reboot`. -/
theorem on_rauc_install_complete_cb_reboot_witness :
    ∃ b, (on_rauc_install_complete_cb ⟨"bundle.raucb", [], 0⟩ fs_with_marker none).2
      = [Event.notify_hawkbit_install_complete b] ++ [Event.sync, Event.reboot] :=
  (on_rauc_install_complete_cb_reboot ⟨"bundle.raucb", [], 0⟩ fs_with_marker none).2.1
    (by decide)

/-- C7: for every install context `on_rauc_install_complete_cb` calls the
completion callback exactly once, and `install_success` is true exactly when
`status_result` is 0. -/
theorem on_rauc_install_complete_cb_notifies_once (context : install_context)
    (fs : String → Bool) (reboot_result : Option Int) :
    ∃ install_success : Bool,
      complete_calls (on_rauc_install_complete_cb context fs reboot_result).2
          = [install_success]
        ∧ (install_success = true ↔ context.status_result = 0) := by
  refine ⟨decide (context.status_result = 0), ?_, by simp⟩
  unfold on_rauc_install_complete_cb
  split <;> simp [complete_calls]

/-! ## main: lemmas and claims -/

theorem main_service_flags (parsed : Except GError options) (n : Nat) (device_file : DeviceFile)
    (apps_contents : Except GError String) (rootfs_version : String) (flags started : control_flags)
    (h : service_flags (main parsed n device_file apps_contents rootfs_version flags).calls
      = some started) :
    started.run_once = flags.run_once ∧ started.force_check_run = true := by
  unfold main at h
  cases parsed with
  | error e => simp [service_flags] at h
  | ok opts =>
    by_cases hv : opts.opt_version = true
    · simp [hv, service_flags] at h
    · by_cases hd : (device_id_init n device_file).1 = true
      · simp [hv, hd, service_flags] at h
        subst h
        exact ⟨rfl, rfl⟩
      · simp [hv, hd, service_flags] at h

theorem main_service_config (parsed : Except GError options) (n : Nat) (device_file : DeviceFile)
    (apps_contents : Except GError String) (rootfs_version : String) (flags : control_flags)
    (c : config)
    (h : service_config (main parsed n device_file apps_contents rootfs_version flags).calls
      = some c) :
    c.ssl_verify = true ∧ c.timeout = 60 ∧ c.connect_timeout = 40 := by
  unfold main at h
  cases parsed with
  | error e => simp [service_config] at h
  | ok opts =>
    by_cases hv : opts.opt_version = true
    · simp [hv, service_config] at h
    · by_cases hd : (device_id_init n device_file).1 = true
      · simp [hv, hd, service_config] at h
        subst h
        exact ⟨rfl, rfl, rfl⟩
      · simp [hv, hd, service_config] at h

/-- C8, evaluated: `main` run with `--run-once` (so `opt_run_once` is TRUE), a
valid device id and both control flags FALSE at entry calls
`hawkbit_start_service_sync` with `force_check_run` TRUE and `run_once` still
FALSE.  The assignment `run_once = TRUE` sits in the branch that the
definition of `WATTSENSE` compiles out. -/
theorem main_run_once_option_ignored :
    service_flags (main (.ok ⟨none, false, false, true, false⟩) 32 sample_device_file
        (.ok "1.2.3") "4.5.6" ⟨false, false⟩).calls
      = some ⟨true, false⟩ := by
  decide

/-! ## config-file.c: lemmas -/

theorem strcmp_eq_zero (a b : List Char) : strcmp a b = 0 ↔ a = b := by
  induction a generalizing b with
  | nil => cases b <;> simp [strcmp]
  | cons x xs ih =>
    cases b with
    | nil => simp [strcmp]
    | cons y ys =>
      by_cases hxy : x = y
      · simp [strcmp, hxy, ih]
      · by_cases hlt : x.toNat < y.toNat <;> simp [strcmp, hxy, hlt]

theorem ascii_strcasecmp_eq_zero (a b : List Char) :
    ascii_strcasecmp a b = 0 ↔ a.map g_ascii_tolower = b.map g_ascii_tolower := by
  induction a generalizing b with
  | nil => cases b <;> simp [ascii_strcasecmp]
  | cons x xs ih =>
    cases b with
    | nil => simp [ascii_strcasecmp]
    | cons y ys =>
      by_cases hxy : g_ascii_tolower x = g_ascii_tolower y
      · simp [ascii_strcasecmp, hxy, ih]
      · by_cases hlt : (g_ascii_tolower x).toNat < (g_ascii_tolower y).toNat <;>
          simp [ascii_strcasecmp, hxy, hlt]

theorem g_strcmp0_eq_zero (a b : String) : g_strcmp0 (some a) (some b) = 0 ↔ a = b := by
  simp only [g_strcmp0, strcmp_eq_zero]
  constructor
  · intro h; exact String.ext h
  · intro h; rw [h]

theorem get_key_int_flag (kf : GKeyFile) (group key : String) (d : Int) :
    (get_key_int kf group key d).1 = true := by
  by_cases h : g_key_file_get_integer kf group key = 0 <;> simp [get_key_int, h]

theorem get_key_int_value (kf : GKeyFile) (group key : String) (d : Int) :
    (get_key_int kf group key d).2
      = if g_key_file_get_integer kf group key = 0 then d
        else g_key_file_get_integer kf group key := by
  by_cases h : g_key_file_get_integer kf group key = 0 <;> simp [get_key_int, h]

theorem load_config_file_config (kf : GKeyFile) (error : Option GError) (r : LoadResult)
    (c : config) (h : load_config_file (.ok kf) error = some r) (hc : r.config = some c) :
    c.timeout = (get_key_int kf "client" "timeout" DEFAULT_TIMEOUT).2
      ∧ c.connect_timeout = (get_key_int kf "client" "connect_timeout" DEFAULT_CONNECTTIMEOUT).2
      ∧ c.ssl_verify = (get_key_bool kf "client" "ssl_verify" false DEFAULT_SSL_VERIFY).2
      ∧ (get_key_bool kf "client" "ssl_verify" false DEFAULT_SSL_VERIFY).1 = true
      ∧ ¬ (c.timeout > 0 ∧ c.connect_timeout > 0 ∧ c.timeout < c.connect_timeout) := by
  unfold load_config_file at h
  dsimp only at h
  generalize get_key_string kf "client" "hawkbit_server" g_new0_config.hawkbit_server none
    error = s1 at h
  generalize get_key_string kf "client" "auth_token" g_new0_config.auth_token none
    s1.2.2 = s2 at h
  generalize get_key_string kf "client" "target_name" g_new0_config.controller_id none
    s2.2.2 = s3 at h
  generalize get_key_string kf "client" "tenant_id" g_new0_config.tenant_id (some "DEFAULT")
    s3.2.2 = s4 at h
  generalize get_key_string kf "client" "bundle_download_location"
    g_new0_config.bundle_download_location none s4.2.2 = s5 at h
  generalize get_key_bool kf "client" "ssl" g_new0_config.ssl DEFAULT_SSL = b1 at h
  generalize hb2 : get_key_bool kf "client" "ssl_verify" g_new0_config.ssl_verify
    DEFAULT_SSL_VERIFY = b2 at h
  generalize get_group kf "device" s5.2.2 = g at h
  generalize get_key_string kf "client" "log_level" none (some DEFAULT_LOG_LEVEL)
    s5.2.2 = s6 at h
  generalize hi1 : get_key_int kf "client" "connect_timeout" DEFAULT_CONNECTTIMEOUT = i1 at h
  generalize hi2 : get_key_int kf "client" "timeout" DEFAULT_TIMEOUT = i2 at h
  generalize get_key_int kf "client" "retry_wait" DEFAULT_RETRY_WAIT = i3 at h
  by_cases h1 : s1.1 = false
  · rw [if_pos h1] at h; cases h; cases hc
  rw [if_neg h1] at h
  by_cases h2 : s2.1 = false
  · rw [if_pos h2] at h; cases h; cases hc
  rw [if_neg h2] at h
  by_cases h3 : s3.1 = false
  · rw [if_pos h3] at h; cases h; cases hc
  rw [if_neg h3] at h
  by_cases h4 : s4.1 = false
  · rw [if_pos h4] at h; cases h; cases hc
  rw [if_neg h4] at h
  by_cases h5 : s5.1 = false
  · rw [if_pos h5] at h; cases h; cases hc
  rw [if_neg h5] at h
  by_cases h6 : b1.1 = false
  · rw [if_pos h6] at h; cases h; cases hc
  rw [if_neg h6] at h
  by_cases h7 : b2.1 = false
  · rw [if_pos h7] at h; cases h; cases hc
  rw [if_neg h7] at h
  cases g with
  | none => cases h
  | some device =>
  dsimp only at h
  by_cases h8 : device.1 = false
  · rw [if_pos h8] at h; cases h; cases hc
  rw [if_neg h8] at h
  by_cases h9 : i1.1 = false
  · rw [if_pos h9] at h; cases h; cases hc
  rw [if_neg h9] at h
  by_cases h10 : i2.1 = false
  · rw [if_pos h10] at h; cases h; cases hc
  rw [if_neg h10] at h
  by_cases h11 : i3.1 = false
  · rw [if_pos h11] at h; cases h; cases hc
  rw [if_neg h11] at h
  by_cases h12 : s6.1 = false
  · rw [if_pos h12] at h; cases h; cases hc
  rw [if_neg h12] at h
  by_cases hcond : i2.2 > 0 ∧ i1.2 > 0 ∧ i2.2 < i1.2
  · rw [if_pos hcond] at h; cases h; cases hc
  rw [if_neg hcond] at h
  cases h
  cases hc
  refine ⟨rfl, rfl, ?_, ?_, hcond⟩
  · show b2.2 = (get_key_bool kf "client" "ssl_verify" g_new0_config.ssl_verify
      DEFAULT_SSL_VERIFY).2
    rw [hb2]
  · show (get_key_bool kf "client" "ssl_verify" g_new0_config.ssl_verify
      DEFAULT_SSL_VERIFY).1 = true
    rw [hb2]
    simpa using h7

theorem get_key_string_flag (kf : GKeyFile) (group key : String) (value : Option String)
    (error : Option GError) :
    (get_key_string kf group key value none error).1
      = (g_key_file_get_string kf group key).toBool := by
  unfold get_key_string
  cases g_key_file_get_string kf group key <;> rfl

theorem get_key_string_default_flag (kf : GKeyFile) (group key d : String)
    (value : Option String) (error : Option GError) :
    (get_key_string kf group key value (some d) error).1 = true := by
  unfold get_key_string
  cases g_key_file_get_string kf group key <;> rfl

theorem load_config_file_required (kf : GKeyFile) (error : Option GError)
    (hreq : required_keys_load kf = true) :
    ∃ r, load_config_file (.ok kf) error = some r
      ∧ ((get_key_int kf "client" "timeout" DEFAULT_TIMEOUT).2 > 0
            ∧ (get_key_int kf "client" "connect_timeout" DEFAULT_CONNECTTIMEOUT).2 > 0
            ∧ (get_key_int kf "client" "timeout" DEFAULT_TIMEOUT).2
                < (get_key_int kf "client" "connect_timeout" DEFAULT_CONNECTTIMEOUT).2 →
          r.config = none ∧ r.error ≠ none)
      ∧ (¬ ((get_key_int kf "client" "timeout" DEFAULT_TIMEOUT).2 > 0
            ∧ (get_key_int kf "client" "connect_timeout" DEFAULT_CONNECTTIMEOUT).2 > 0
            ∧ (get_key_int kf "client" "timeout" DEFAULT_TIMEOUT).2
                < (get_key_int kf "client" "connect_timeout" DEFAULT_CONNECTTIMEOUT).2) →
          ∃ c, r.config = some c
            ∧ c.timeout = (get_key_int kf "client" "timeout" DEFAULT_TIMEOUT).2
            ∧ c.connect_timeout
                = (get_key_int kf "client" "connect_timeout" DEFAULT_CONNECTTIMEOUT).2) := by
  simp only [required_keys_load, Bool.and_eq_true] at hreq
  obtain ⟨⟨⟨⟨⟨⟨k1, k2⟩, k3⟩, k4⟩, k5⟩, k6⟩, k7⟩ := hreq
  unfold load_config_file
  dsimp only
  have f1 := get_key_string_flag kf "client" "hawkbit_server" g_new0_config.hawkbit_server error
  generalize get_key_string kf "client" "hawkbit_server" g_new0_config.hawkbit_server none
    error = s1 at f1 ⊢
  have f2 := get_key_string_flag kf "client" "auth_token" g_new0_config.auth_token s1.2.2
  generalize get_key_string kf "client" "auth_token" g_new0_config.auth_token none
    s1.2.2 = s2 at f2 ⊢
  have f3 := get_key_string_flag kf "client" "target_name" g_new0_config.controller_id s2.2.2
  generalize get_key_string kf "client" "target_name" g_new0_config.controller_id none
    s2.2.2 = s3 at f3 ⊢
  have f4 := get_key_string_default_flag kf "client" "tenant_id" "DEFAULT"
    g_new0_config.tenant_id s3.2.2
  generalize get_key_string kf "client" "tenant_id" g_new0_config.tenant_id (some "DEFAULT")
    s3.2.2 = s4 at f4 ⊢
  have f5 := get_key_string_flag kf "client" "bundle_download_location"
    g_new0_config.bundle_download_location s4.2.2
  generalize get_key_string kf "client" "bundle_download_location"
    g_new0_config.bundle_download_location none s4.2.2 = s5 at f5 ⊢
  have f6 : (get_key_bool kf "client" "ssl" g_new0_config.ssl DEFAULT_SSL).1 = true := k5
  generalize get_key_bool kf "client" "ssl" g_new0_config.ssl DEFAULT_SSL = b1 at f6 ⊢
  have f7 : (get_key_bool kf "client" "ssl_verify" g_new0_config.ssl_verify
    DEFAULT_SSL_VERIFY).1 = true := k6
  generalize get_key_bool kf "client" "ssl_verify" g_new0_config.ssl_verify
    DEFAULT_SSL_VERIFY = b2 at f7 ⊢
  have f8 : (match get_group kf "device" s5.2.2 with
        | some device => device.1
        | none => false) = true := k7
  generalize get_group kf "device" s5.2.2 = g at f8 ⊢
  have f12 := get_key_string_default_flag kf "client" "log_level" DEFAULT_LOG_LEVEL none s5.2.2
  generalize get_key_string kf "client" "log_level" none (some DEFAULT_LOG_LEVEL)
    s5.2.2 = s6 at f12 ⊢
  have f9 := get_key_int_flag kf "client" "connect_timeout" DEFAULT_CONNECTTIMEOUT
  generalize get_key_int kf "client" "connect_timeout" DEFAULT_CONNECTTIMEOUT = i1 at f9 ⊢
  have f10 := get_key_int_flag kf "client" "timeout" DEFAULT_TIMEOUT
  generalize get_key_int kf "client" "timeout" DEFAULT_TIMEOUT = i2 at f10 ⊢
  have f11 := get_key_int_flag kf "client" "retry_wait" DEFAULT_RETRY_WAIT
  generalize get_key_int kf "client" "retry_wait" DEFAULT_RETRY_WAIT = i3 at f11 ⊢
  rw [k1] at f1
  rw [k2] at f2
  rw [k3] at f3
  rw [k4] at f5
  cases g with
  | none => simp at f8
  | some device =>
  dsimp only at f8 ⊢
  rw [if_neg (by simp [f1]), if_neg (by simp [f2]), if_neg (by simp [f3]),
    if_neg (by simp [f4]), if_neg (by simp [f5]), if_neg (by simp [f6]),
    if_neg (by simp [f7]), if_neg (by simp [f8]), if_neg (by simp [f9]),
    if_neg (by simp [f10]), if_neg (by simp [f11]), if_neg (by simp [f12])]
  by_cases hcond : i2.2 > 0 ∧ i1.2 > 0 ∧ i2.2 < i1.2
  · rw [if_pos hcond]
    refine ⟨_, rfl, fun _ => ⟨rfl, ?_⟩, fun hn => absurd hcond hn⟩
    cases s6.2.2 <;> simp [g_set_error]
  · rw [if_neg hcond]
    exact ⟨_, rfl, fun hp => absurd hp hcond, fun _ => ⟨_, rfl, rfl, rfl⟩⟩

theorem g_ascii_strcasecmp_eq_zero (a b : String) :
    g_ascii_strcasecmp a b = 0 ↔ eq_ignoring_ascii_case a b := by
  simp only [g_ascii_strcasecmp, ascii_strcasecmp_eq_zero, eq_ignoring_ascii_case]

theorem get_key_bool_absent (kf : GKeyFile) (group key : String) (value d : Bool) (e : GError)
    (h : g_key_file_get_string kf group key = .error e) :
    get_key_bool kf group key value d = (true, d) := by
  simp [get_key_bool, h]

theorem get_key_bool_false (kf : GKeyFile) (group key : String) (value : Bool)
    (hflag : (get_key_bool kf group key value true).1 = true)
    (hval : (get_key_bool kf group key value true).2 = false) :
    ∃ v, g_key_file_get_string kf group key = .ok v
      ∧ (v = "0" ∨ eq_ignoring_ascii_case v "no" ∨ eq_ignoring_ascii_case v "false") := by
  unfold get_key_bool at hflag hval
  cases hs : g_key_file_get_string kf group key with
  | error e => simp [hs] at hval
  | ok v =>
    refine ⟨v, rfl, ?_⟩
    simp only [hs, g_strcmp0_eq_zero, g_ascii_strcasecmp_eq_zero] at hflag hval
    by_cases hf : (v = "0" ∨ eq_ignoring_ascii_case v "no") ∨ eq_ignoring_ascii_case v "false"
    · rcases hf with (h | h) | h
      · exact Or.inl h
      · exact Or.inr (Or.inl h)
      · exact Or.inr (Or.inr h)
    · exfalso
      have hf2 : (decide (v = "0") || decide (eq_ignoring_ascii_case v "no")
          || decide (eq_ignoring_ascii_case v "false")) = false := by
        simpa using hf
      rw [hf2] at hflag hval
      by_cases ht : (decide (v = "1") || decide (eq_ignoring_ascii_case v "yes")
          || decide (eq_ignoring_ascii_case v "true")) = true
      · rw [ht] at hval
        simp at hval
      · have ht2 : (decide (v = "1") || decide (eq_ignoring_ascii_case v "yes")
            || decide (eq_ignoring_ascii_case v "true")) = false := by
          simpa using ht
        rw [ht2] at hflag
        simp at hflag

theorem get_key_bool_unrecognised (kf : GKeyFile) (group key v : String) (value d : Bool)
    (h : g_key_file_get_string kf group key = .ok v)
    (h0 : v ≠ "0") (hno : ¬ eq_ignoring_ascii_case v "no")
    (hfalse : ¬ eq_ignoring_ascii_case v "false")
    (h1 : v ≠ "1") (hyes : ¬ eq_ignoring_ascii_case v "yes")
    (htrue : ¬ eq_ignoring_ascii_case v "true") :
    (get_key_bool kf group key value d).1 = false := by
  simp [get_key_bool, h, g_strcmp0_eq_zero, g_ascii_strcasecmp_eq_zero, h0, hno, hfalse, h1,
    hyes, htrue]

theorem load_config_file_ssl_verify_rejected (kf : GKeyFile) (error : Option GError)
    (h : (get_key_bool kf "client" "ssl_verify" false DEFAULT_SSL_VERIFY).1 = false) :
    ∃ r, load_config_file (.ok kf) error = some r ∧ r.config = none := by
  unfold load_config_file
  dsimp only
  generalize get_key_string kf "client" "hawkbit_server" g_new0_config.hawkbit_server none
    error = s1
  generalize get_key_string kf "client" "auth_token" g_new0_config.auth_token none
    s1.2.2 = s2
  generalize get_key_string kf "client" "target_name" g_new0_config.controller_id none
    s2.2.2 = s3
  generalize get_key_string kf "client" "tenant_id" g_new0_config.tenant_id (some "DEFAULT")
    s3.2.2 = s4
  generalize get_key_string kf "client" "bundle_download_location"
    g_new0_config.bundle_download_location none s4.2.2 = s5
  generalize get_key_bool kf "client" "ssl" g_new0_config.ssl DEFAULT_SSL = b1
  have h7 : (get_key_bool kf "client" "ssl_verify" g_new0_config.ssl_verify
    DEFAULT_SSL_VERIFY).1 = false := h
  generalize get_key_bool kf "client" "ssl_verify" g_new0_config.ssl_verify
    DEFAULT_SSL_VERIFY = b2 at h7
  by_cases h1 : s1.1 = false
  · rw [if_pos h1]; exact ⟨_, rfl, rfl⟩
  rw [if_neg h1]
  by_cases h2 : s2.1 = false
  · rw [if_pos h2]; exact ⟨_, rfl, rfl⟩
  rw [if_neg h2]
  by_cases h3 : s3.1 = false
  · rw [if_pos h3]; exact ⟨_, rfl, rfl⟩
  rw [if_neg h3]
  by_cases h4 : s4.1 = false
  · rw [if_pos h4]; exact ⟨_, rfl, rfl⟩
  rw [if_neg h4]
  by_cases h5 : s5.1 = false
  · rw [if_pos h5]; exact ⟨_, rfl, rfl⟩
  rw [if_neg h5]
  by_cases h6 : b1.1 = false
  · rw [if_pos h6]; exact ⟨_, rfl, rfl⟩
  rw [if_neg h6, if_pos h7]
  exact ⟨_, rfl, rfl⟩

/-! ## config-file.c: claims -/

/-- C1: `load_config_file` fails on the timeout constraint and only on it.  For
every key file in which all required keys load, with `T` and `C` the effective
timeout and connect timeout (the integer the file gives, or the default 60
resp. 20 when that integer is 0, which covers a missing key), the load returns
`NULL` with an error set exactly when `T > 0`, `C > 0` and `T < C`; otherwise
it returns a configuration with `timeout = T` and `connect_timeout = C`.  In
particular `timeout=10, connect_timeout=20` fails. -/
theorem load_config_file_fails_iff_timeout :
    (∀ (kf : GKeyFile) (T C : Int),
        required_keys_load kf = true →
        T = (if g_key_file_get_integer kf "client" "timeout" = 0 then 60
              else g_key_file_get_integer kf "client" "timeout") →
        C = (if g_key_file_get_integer kf "client" "connect_timeout" = 0 then 20
              else g_key_file_get_integer kf "client" "connect_timeout") →
        ∃ r, load_config_file (.ok kf) none = some r
          ∧ ((r.config = none ∧ r.error ≠ none) ↔ (T > 0 ∧ C > 0 ∧ T < C))
          ∧ (¬ (T > 0 ∧ C > 0 ∧ T < C) →
              ∃ c, r.config = some c ∧ c.timeout = T ∧ c.connect_timeout = C))
      ∧ (∃ r, load_config_file
            (.ok (sample_key_file [("timeout", "10"), ("connect_timeout", "20")])) none = some r
          ∧ r.config = none ∧ r.error ≠ none) := by
  have key : ∀ (kf : GKeyFile) (T C : Int),
      required_keys_load kf = true →
      T = (if g_key_file_get_integer kf "client" "timeout" = 0 then 60
            else g_key_file_get_integer kf "client" "timeout") →
      C = (if g_key_file_get_integer kf "client" "connect_timeout" = 0 then 20
            else g_key_file_get_integer kf "client" "connect_timeout") →
      ∃ r, load_config_file (.ok kf) none = some r
        ∧ ((r.config = none ∧ r.error ≠ none) ↔ (T > 0 ∧ C > 0 ∧ T < C))
        ∧ (¬ (T > 0 ∧ C > 0 ∧ T < C) →
            ∃ c, r.config = some c ∧ c.timeout = T ∧ c.connect_timeout = C) := by
    intro kf T C hreq hT hC
    obtain ⟨r, hr, hfail, hok⟩ := load_config_file_required kf none hreq
    rw [get_key_int_value, get_key_int_value] at hfail hok
    simp only [DEFAULT_TIMEOUT, DEFAULT_CONNECTTIMEOUT] at hfail hok
    rw [← hT, ← hC] at hfail hok
    refine ⟨r, hr, ⟨?_, hfail⟩, hok⟩
    rintro ⟨hnone, _⟩
    by_contra hn
    obtain ⟨c, hc, _⟩ := hok hn
    rw [hnone] at hc
    cases hc
  refine ⟨key, ?_⟩
  obtain ⟨r, hr, hiff, _⟩ :=
    key (sample_key_file [("timeout", "10"), ("connect_timeout", "20")]) 10 20
      (by decide) (by decide) (by decide)
  exact ⟨r, hr, hiff.mpr (by decide)⟩

/-- Witness for C1: the sample key file without timeout keys loads with the
defaults `timeout = 60` and `connect_timeout = 20`. -/
theorem load_config_file_fails_iff_timeout_witness :
    ∃ r, load_config_file (.ok (sample_key_file [])) none = some r
      ∧ ((r.config = none ∧ r.error ≠ none)
          ↔ ((60 : Int) > 0 ∧ (20 : Int) > 0 ∧ (60 : Int) < 20))
      ∧ (¬ ((60 : Int) > 0 ∧ (20 : Int) > 0 ∧ (60 : Int) < 20) →
          ∃ c, r.config = some c ∧ c.timeout = 60 ∧ c.connect_timeout = 20) :=
  load_config_file_fails_iff_timeout.1 (sample_key_file []) 60 20
    (by decide) (by decide) (by decide)

/-- C2, as stated, fails: the sample key file with `timeout=-5` and
`connect_timeout=20` gives both keys and loads, and the configuration returned
has `timeout = -5`, below `connect_timeout = 20`. -/
theorem load_config_file_negative_timeout_example :
    g_key_file_get_value (sample_key_file [("timeout", "-5"), ("connect_timeout", "20")])
        "client" "timeout" = .ok "-5"
      ∧ g_key_file_get_value (sample_key_file [("timeout", "-5"), ("connect_timeout", "20")])
        "client" "connect_timeout" = .ok "20"
      ∧ ∃ r c, load_config_file
            (.ok (sample_key_file [("timeout", "-5"), ("connect_timeout", "20")])) none = some r
          ∧ r.config = some c ∧ c.timeout = -5 ∧ c.connect_timeout = 20
          ∧ ¬ (c.timeout ≥ c.connect_timeout) := by
  refine ⟨rfl, rfl, ?_⟩
  have h : (load_config_file
      (.ok (sample_key_file [("timeout", "-5"), ("connect_timeout", "20")])) none).bind
      (fun r => r.config.map (fun c => (c.timeout, c.connect_timeout))) = some (-5, 20) := by
    decide
  obtain ⟨r, hr, h2⟩ := Option.bind_eq_some.mp h
  obtain ⟨c, hc, h3⟩ := Option.map_eq_some'.mp h2
  simp only [Prod.mk.injEq] at h3
  refine ⟨r, c, hr, hc, h3.1, h3.2, ?_⟩
  rw [h3.1, h3.2]
  decide

/-- C2, amended: every configuration `load_config_file` returns has
`timeout >= connect_timeout` whenever both are positive (a timeout or connect
timeout that is not positive is returned unchecked), and the configuration
hardcoded in `main` has `timeout = 60 >= connect_timeout = 40`. -/
theorem load_config_file_timeout_invariant :
    (∀ (kf : GKeyFile) (error : Option GError) (r : LoadResult) (c : config),
        load_config_file (.ok kf) error = some r → r.config = some c →
        c.timeout > 0 → c.connect_timeout > 0 → c.timeout ≥ c.connect_timeout)
      ∧ (∀ (parsed : Except GError options) (n : Nat) (device_file : DeviceFile)
          (apps_contents : Except GError String) (rootfs_version : String)
          (flags : control_flags) (c : config),
          service_config (main parsed n device_file apps_contents rootfs_version flags).calls
            = some c →
          c.timeout = 60 ∧ c.connect_timeout = 40 ∧ c.timeout ≥ c.connect_timeout) := by
  constructor
  · intro kf error r c h hc ht hct
    obtain ⟨_, _, _, _, hn⟩ := load_config_file_config kf error r c h hc
    by_contra hlt
    exact hn ⟨ht, hct, lt_of_not_ge hlt⟩
  · intro parsed n device_file apps_contents rootfs_version flags c h
    obtain ⟨_, ht, hct⟩ :=
      main_service_config parsed n device_file apps_contents rootfs_version flags c h
    refine ⟨ht, hct, ?_⟩
    rw [ht, hct]
    decide

/-- Witness for C2 amended: the sample key file with `timeout=30` and
`connect_timeout=10` loads and keeps `30 >= 10`. -/
theorem load_config_file_timeout_invariant_witness :
    sample_config_30_10.timeout ≥ sample_config_30_10.connect_timeout :=
  load_config_file_timeout_invariant.1
    (sample_key_file [("timeout", "30"), ("connect_timeout", "10")]) none
    ⟨some sample_config_30_10, some ⟨GQuark.G_KEY_FILE_ERROR, G_KEY_FILE_ERROR_KEY_NOT_FOUND,
      "Key file does not have key log_level in group client"⟩⟩
    sample_config_30_10 (by decide) rfl (by decide) (by decide)

/-- C9: TLS certificate verification is off only when the key file says so.  A
configuration returned by `load_config_file` has `ssl_verify` FALSE only if the
`[client] ssl_verify` key is present with the value `0` or, ignoring ASCII
case, `no` or `false`; with the key absent `ssl_verify` is TRUE; a present
value that is none of `0`, `1` and, ignoring ASCII case, `no`, `false`, `yes`,
`true` makes the load return `NULL`; the configuration hardcoded in `main` has
`ssl_verify` TRUE. -/
theorem ssl_verify_disabled_only_when_configured :
    (∀ (kf : GKeyFile) (error : Option GError) (r : LoadResult) (c : config),
        load_config_file (.ok kf) error = some r → r.config = some c →
        c.ssl_verify = false →
        ∃ v, g_key_file_get_string kf "client" "ssl_verify" = .ok v
          ∧ (v = "0" ∨ eq_ignoring_ascii_case v "no" ∨ eq_ignoring_ascii_case v "false"))
      ∧ (∀ (kf : GKeyFile) (error : Option GError) (r : LoadResult) (c : config) (e : GError),
          load_config_file (.ok kf) error = some r → r.config = some c →
          g_key_file_get_string kf "client" "ssl_verify" = .error e →
          c.ssl_verify = true)
      ∧ (∀ (kf : GKeyFile) (error : Option GError) (v : String),
          g_key_file_get_string kf "client" "ssl_verify" = .ok v →
          v ≠ "0" → ¬ eq_ignoring_ascii_case v "no" → ¬ eq_ignoring_ascii_case v "false" →
          v ≠ "1" → ¬ eq_ignoring_ascii_case v "yes" → ¬ eq_ignoring_ascii_case v "true" →
          ∃ r, load_config_file (.ok kf) error = some r ∧ r.config = none)
      ∧ (∀ (parsed : Except GError options) (n : Nat) (device_file : DeviceFile)
          (apps_contents : Except GError String) (rootfs_version : String)
          (flags : control_flags) (c : config),
          service_config (main parsed n device_file apps_contents rootfs_version flags).calls
            = some c →
          c.ssl_verify = true) := by
  refine ⟨?_, ?_, ?_, ?_⟩
  · intro kf error r c h hc hv
    obtain ⟨_, _, hssl, hflag, _⟩ := load_config_file_config kf error r c h hc
    rw [hssl] at hv
    exact get_key_bool_false kf "client" "ssl_verify" false hflag hv
  · intro kf error r c e h hc he
    obtain ⟨_, _, hssl, _, _⟩ := load_config_file_config kf error r c h hc
    rw [hssl, get_key_bool_absent kf "client" "ssl_verify" false DEFAULT_SSL_VERIFY e he]
    rfl
  · intro kf error v hv h0 hno hfalse h1 hyes htrue
    exact load_config_file_ssl_verify_rejected kf error
      (get_key_bool_unrecognised kf "client" "ssl_verify" v false DEFAULT_SSL_VERIFY hv
        h0 hno hfalse h1 hyes htrue)
  · intro parsed n device_file apps_contents rootfs_version flags c h
    exact (main_service_config parsed n device_file apps_contents rootfs_version flags c h).1

/-- Witness for C9: the sample key file with `ssl_verify=maybe` does not
load. -/
theorem ssl_verify_disabled_only_when_configured_witness :
    ∃ r, load_config_file (.ok (sample_key_file [("ssl_verify", "maybe")])) none = some r
      ∧ r.config = none :=
  ssl_verify_disabled_only_when_configured.2.2.1
    (sample_key_file [("ssl_verify", "maybe")]) none "maybe" rfl
    (by decide) (by decide) (by decide) (by decide) (by decide) (by decide)

/-- C10, evaluated: `load_config_file` returns `NULL` and leaves `*error` at
`NULL` on the sample key file with `ssl_verify=maybe`, with `ssl=maybe`, and
with an empty `[device]` group.  `get_key_bool` never writes its `error`
argument and `get_group` receives the error pointer by value. -/
theorem load_config_file_fails_without_error :
    load_config_file (.ok (sample_key_file [("ssl_verify", "maybe")])) none
        = some ⟨none, none⟩
      ∧ load_config_file (.ok (sample_key_file [("ssl", "maybe")])) none = some ⟨none, none⟩
      ∧ load_config_file (.ok sample_key_file_empty_device) none = some ⟨none, none⟩ := by
  decide

/-! ## device_id.c: lemmas and claim -/

theorem isalnum_iff (c : Nat) :
    isalnum c = true ↔ (48 ≤ c ∧ c ≤ 57) ∨ (65 ≤ c ∧ c ≤ 90) ∨ (97 ≤ c ∧ c ≤ 122) := by
  simp [isalnum, or_assoc]

theorem device_id_init_loop_true (buf : List Nat) (len : Nat) :
    ∀ remaining : Nat, remaining ≤ len →
      (device_id_init_loop buf len remaining = true
        ↔ ∀ i : Nat, len - remaining ≤ i → i < len → isalnum (buf.getD i 0) = true) := by
  intro remaining
  induction remaining with
  | zero =>
    intro _
    simp only [device_id_init_loop, true_iff]
    intro i h1 h2
    omega
  | succ r ih =>
    intro hr
    have ih2 := ih (by omega)
    by_cases hc : isalnum (buf.getD (len - (r + 1)) 0) = true
    · simp only [device_id_init_loop, hc, Bool.not_true, Bool.false_eq_true, if_false]
      rw [ih2]
      constructor
      · intro h i h1 h2
        by_cases hi : i = len - (r + 1)
        · rw [hi]; exact hc
        · exact h i (by omega) h2
      · intro h i h1 h2
        exact h i (by omega) h2
    · have hc2 : isalnum (buf.getD (len - (r + 1)) 0) = false := by simpa using hc
      simp only [device_id_init_loop, hc2, Bool.not_false, if_true, Bool.false_eq_true,
        false_iff]
      intro h
      exact hc (h (len - (r + 1)) (le_refl _) (by omega))

theorem device_id_init_loop_read (data rest : List Nat) :
    device_id_init_loop (data ++ rest) data.length data.length = true
      ↔ ∀ b ∈ data, isalnum b = true := by
  rw [device_id_init_loop_true (data ++ rest) data.length data.length (le_refl _)]
  constructor
  · intro h b hb
    obtain ⟨i, hi, hget⟩ := List.getElem_of_mem hb
    have := h i (by omega) hi
    rw [List.getD_eq_getElem?_getD, List.getElem?_append_left hi,
      List.getElem?_eq_getElem hi] at this
    rw [← hget]
    simpa using this
  · intro h i _ hi
    rw [List.getD_eq_getElem?_getD, List.getElem?_append_left hi, List.getElem?_eq_getElem hi]
    exact h _ (List.getElem_mem hi)

theorem device_id_init_accepts_iff (DEVICE_ID_LENGTH_MAX : Nat) (file : DeviceFile)
    (hfd : file.fd > 0) :
    (device_id_init DEVICE_ID_LENGTH_MAX file).1 = true
      ↔ ∃ bytes, file.contents = some bytes
          ∧ 0 < (bytes.take DEVICE_ID_LENGTH_MAX).length
          ∧ ∀ b ∈ bytes.take DEVICE_ID_LENGTH_MAX,
              (48 ≤ b ∧ b ≤ 57) ∨ (65 ≤ b ∧ b ≤ 90) ∨ (97 ≤ b ∧ b ≤ 122) := by
  unfold device_id_init
  simp only [hfd, if_true, read]
  cases hcont : file.contents with
  | none => simp
  | some bytes =>
    simp only [Option.some.injEq, exists_eq_left']
    by_cases hlen : 0 < (bytes.take DEVICE_ID_LENGTH_MAX).length
    · have hpos : ((bytes.take DEVICE_ID_LENGTH_MAX).length : Int) > 0 := by exact_mod_cast hlen
      simp only [hpos, if_true, Int.toNat_ofNat, device_id_init_loop_read, isalnum_iff]
      exact ⟨fun h => ⟨hlen, h⟩, fun h => h.2⟩
    · have hneg : ¬ ((bytes.take DEVICE_ID_LENGTH_MAX).length : Int) > 0 := by
        intro h
        exact hlen (by exact_mod_cast h)
      simp only [hneg, if_false, Bool.false_eq_true, false_iff]
      intro h
      exact hlen h.1

theorem main_device_id_rejected (opts : options) (n : Nat) (device_file : DeviceFile)
    (apps_contents : Except GError String) (rootfs_version : String) (flags : control_flags)
    (hv : opts.opt_version = false) (hid : (device_id_init n device_file).1 = false) :
    main (.ok opts) n device_file apps_contents rootfs_version flags = ⟨5, []⟩ := by
  simp [main, hv, hid]

/-- C11, evaluated: when `open` succeeds with descriptor 0 the test `fd > 0`
sends `device_id_init` to the branch for a file that cannot be opened, so it
returns false whatever the file holds.  The eight alphanumeric bytes `SN123456`
are accepted behind descriptor 3 and refused behind descriptor 0, and `main`
then leaves with exit code 5 without any further call. -/
theorem device_id_init_refuses_descriptor_zero :
    (∀ (n : Nat) (contents : Option (List Nat)), (device_id_init n ⟨0, contents⟩).1 = false)
      ∧ (device_id_init 32 sample_device_file).1 = true
      ∧ (device_id_init 32 sample_device_file_descriptor_zero).1 = false
      ∧ main (.ok ⟨none, false, false, false, false⟩) 32 sample_device_file_descriptor_zero
          (.ok "1.2.3") "4.5.6" ⟨false, false⟩ = ⟨5, []⟩ := by
  refine ⟨?_, by decide, by decide, by decide⟩
  intro n contents
  simp [device_id_init]

end RaucHawkbit
